import Mathlib

/-!
Verification of the craterra album-collection API.

The definitions below are a shallow embedding of the JavaScript source:
  * `src/utils/sendResponse.js`   — the response envelope,
  * the mongoose `albumSchema` / `userSchema` (same file bundle),
  * `src/middlewares/auth.middleware.js` — `isAuth`, `isOwner`,
  * `src/api/controllers/albums.controllers.js` — `postAlbum`, `updateAlbum`,
    `getMyAlbums`,
  * `src/api/controllers/users.controllers.js` — `changeMyPassword`,
  * `src/api/controllers/admin.controllers.js` — `deleteUser`, `getAllUsers`,
  * `src/api/controllers/auth.controllers.js` — `registerUser`,
  * `index.js` — the global error handler.

The document store is modelled as a `List` of records in insertion order;
document ids are opaque strings.  External primitives (bcrypt, JWT
verification) are parameters of the functions that call them.  Free-form
album fields (labels, genres, tags, dimensions, personalNote, connections,
listeningContext) carry no invariant touched by any property below and are
not represented.
-/

namespace Craterra

/-! ### JavaScript string primitives -/

/-- JS whitespace characters (ASCII fragment relevant here): the characters
removed by `String.prototype.trim` and by the mongoose `trim: true` setter. -/
def isJsSpace (c : Char) : Bool :=
  c == ' ' || c == '\t' || c == '\n' || c == '\r' || c == '\x0b' || c == '\x0c'

/-- Model of `s.trim()` — drop leading and trailing whitespace. -/
def jsTrim (s : String) : String :=
  String.mk (((s.data.dropWhile isJsSpace).reverse.dropWhile isJsSpace).reverse)

/-- Model of `s.toLowerCase()` on the ASCII range. -/
def jsToLower (s : String) : String :=
  String.mk (s.data.map Char.toLower)

/-- Model of `s.trim().toLowerCase()` — the normalization used by `postAlbum`. -/
def normalize (s : String) : String :=
  jsToLower (jsTrim s)

/-- Remove the first occurrence of `pat` from a character list; if `pat` does
not occur the list is returned unchanged.  This is
`String.prototype.replace(pat, "")` with a string search value. -/
def removeFirstOcc (pat : List Char) : List Char → List Char
  | [] => []
  | c :: rest =>
    if pat.isPrefixOf (c :: rest) then (c :: rest).drop pat.length
    else c :: removeFirstOcc pat rest

/-- Model of `s.replace(pat, "")` — JS replaces only the first occurrence. -/
def jsReplaceFirst (s pat : String) : String :=
  String.mk (removeFirstOcc pat.data s.data)

/-- Whether `pat` occurs as a contiguous subsequence of the list (helper used
only to state properties of `jsReplaceFirst`). -/
def containsSeq (pat : List Char) : List Char → Bool
  | [] => pat.isEmpty
  | c :: rest => pat.isPrefixOf (c :: rest) || containsSeq pat rest

/-! ### JSON values and the response envelope (`src/utils/sendResponse.js`) -/

/-- A JavaScript value as it matters to response bodies. -/
inductive JSValue where
  | null
  | undef
  | bool (b : Bool)
  | num (n : Int)
  | str (s : String)
  | arr (xs : List JSValue)
  | obj (fields : List (String × JSValue))

/-- JS truthiness of a value (`if (data)` in `sendResponse`). -/
def truthy : JSValue → Bool
  | .null => false
  | .undef => false
  | .bool b => b
  | .num n => n != 0
  | .str s => s != ""
  | .arr _ => true
  | .obj _ => true

/-- The JSON body sent by `sendResponse`: `{ success, message }` plus the
optional `data` key. -/
structure HttpResponse where
  status : Nat
  success : Bool
  message : String
  data : Option JSValue

/-- Function `sendResponse(res, statusCode, success, message, data = null)`:
builds `{ success, message }` and adds `data` only when it is truthy. -/
def sendResponse (statusCode : Nat) (success : Bool) (message : String)
    (data : JSValue := .null) : HttpResponse :=
  { status := statusCode, success := success, message := message
    data := if truthy data then some data else none }

/-- An error object as produced by `createError(status, message)` (status
present) or by a native JS error such as a `ReferenceError` (no `status`
property, `status := none`). -/
structure ErrObj where
  status : Option Nat
  message : String
deriving DecidableEq

/-- The global error handler in `index.js`:
`sendResponse(res, err.status || 500, false, err.message || "Unexpected error")`. -/
def errorHandler (e : ErrObj) : HttpResponse :=
  sendResponse (e.status.getD 500) false
    (if e.message == "" then "Unexpected error" else e.message)

/-! ### Stored documents (mongoose schemas in the model file bundle) -/

/-- A stored album document.  Fields follow `albumSchema`: `title` and each
entry of `artists` carry a `trim: true` setter; `addedBy` is required.  The
schema declares NO `titleNormalized` / `artistsNormalized` paths, so those
keys, passed by `postAlbum`, are discarded on save (mongoose strict mode). -/
structure StoredAlbum where
  id : String
  title : String
  artists : List String
  format : String
  releaseDate : String
  coverArtUrl : Option String
  coverArtId : Option String
  addedBy : String
deriving DecidableEq

/-- The `format` enum of `albumSchema`. -/
def albumFormats : List String :=
  ["LP", "EP", "Reissue", "Live", "Compilation", "Box Set", "Holiday",
   "Instrumental", "Remix", "Soundtrack", "Mixtape"]

/-- A stored user document, following `userSchema`: `email` carries
`lowercase: true, trim: true` setters, `password` is stored hashed by the
`pre("save")` bcrypt hook, `role` defaults to `"user"`. -/
structure StoredUser where
  id : String
  name : String
  email : String
  password : String
  role : String
  profileImageUrl : Option String
  profileImageId : Option String
deriving DecidableEq

/-- Serialize an optional document field: JSON omits absent keys. -/
def optField (k : String) : Option String → List (String × JSValue)
  | none => []
  | some v => [(k, .str v)]

/-- The `res.json` serialization of an album document. -/
def albumToJS (a : StoredAlbum) : JSValue :=
  .obj ([("_id", .str a.id), ("title", .str a.title),
         ("artists", .arr (a.artists.map JSValue.str)),
         ("format", .str a.format), ("releaseDate", .str a.releaseDate)]
        ++ optField "coverArtUrl" a.coverArtUrl
        ++ optField "coverArtId" a.coverArtId
        ++ [("addedBy", .str a.addedBy)])

/-- The `res.json` serialization of a user document — mongoose serializes every
stored path, including `password`, unless a projection excluded it. -/
def userToJS (u : StoredUser) : JSValue :=
  .obj ([("_id", .str u.id), ("name", .str u.name), ("email", .str u.email),
         ("password", .str u.password), ("role", .str u.role)]
        ++ optField "profileImageUrl" u.profileImageUrl
        ++ optField "profileImageId" u.profileImageId)

/-- Lookup `Album.findById(id)` over the stored collection. -/
def findAlbumById (db : List StoredAlbum) (id : String) : Option StoredAlbum :=
  db.find? (fun a => a.id == id)

/-- Lookup `User.findById(id)` over the stored collection. -/
def findUserById (users : List StoredUser) (id : String) : Option StoredUser :=
  users.find? (fun u => u.id == id)

/-- An uploaded file as multer/Cloudinary attaches it to `req.file`. -/
structure FileInfo where
  path : String
  filename : String
deriving DecidableEq

/-! ### Album controllers (`albums.controllers.js`) -/

/-- The `req.body` of an album request; absent keys are `none`.  `addedBy` may be
supplied by the client — `postAlbum` overrides it, `updateAlbum` does not. -/
structure AlbumBody where
  title : Option String := none
  artists : Option (List String) := none
  format : Option String := none
  releaseDate : Option String := none
  coverArtUrl : Option String := none
  coverArtId : Option String := none
  addedBy : Option String := none
deriving DecidableEq

/-- The MongoDB filter used by `postAlbum`'s duplicate check:
`{ title: normalizedTitle,
   artists: { $all: normalizedArtists, $size: normalizedArtists.length },
   addedBy }`.
It compares the lower-cased values against the stored `title` / `artists`
paths (the raw, only-trimmed display values — the schema stores nothing
else). `$all` is membership of every query element, `$size` exact length. -/
def dupQueryMatch (normTitle : String) (normArtists : List String)
    (owner : String) (a : StoredAlbum) : Bool :=
  a.title == normTitle
    && normArtists.all (fun x => a.artists.contains x)
    && a.artists.length == normArtists.length
    && a.addedBy == owner

/-- Mongoose `save()` validation for a new album: `title`, `format`,
`releaseDate`, `addedBy` required; `format` restricted to the enum. -/
def albumValid (a : StoredAlbum) : Bool :=
  a.title != "" && albumFormats.contains a.format && a.releaseDate != ""
    && a.addedBy != ""

/-- Result of a controller run: the response sent, the album collection
afterwards, and the Cloudinary public ids passed to `deleteImgCloudinary`. -/
structure AlbumOutcome where
  resp : HttpResponse
  db : List StoredAlbum
  deletedImages : List String

/-- The `catch` blocks of `postAlbum`/`updateAlbum`: if `req.file?.filename`
exists the uploaded image is removed, then the error goes to `next`. -/
def albumCatch (e : ErrObj) (db : List StoredAlbum) (file : Option FileInfo) :
    AlbumOutcome :=
  { resp := errorHandler e, db := db
    deletedImages := match file with | some f => [f.filename] | none => [] }

/-- Controller `postAlbum(req, res, next)`: normalizes title/artists, runs the duplicate
`findOne`, then saves `{ ...req.body, titleNormalized, artistsNormalized,
addedBy: req.user._id }` — the schema drops the two normalized keys and
applies the `trim` setters; `req.file` overrides the cover-art fields.
`freshId` is the id the store assigns to the new document. -/
def postAlbum (db : List StoredAlbum) (userId : String) (body : AlbumBody)
    (file : Option FileInfo) (freshId : String) : AlbumOutcome :=
  match body.title with
  | none =>
    -- `title.trim()` on an absent field raises a TypeError (no `status`).
    albumCatch ⟨none, "Cannot read properties of undefined"⟩ db file
  | some title =>
    let artists := body.artists.getD []
    let normalizedTitle := normalize title
    let normalizedArtists := artists.map normalize
    match db.find? (dupQueryMatch normalizedTitle normalizedArtists userId) with
    | some _ =>
      albumCatch ⟨some 400, "This album already exists in your collection"⟩
        db file
    | none =>
      let album : StoredAlbum :=
        { id := freshId
          title := jsTrim title
          artists := artists.map jsTrim
          format := body.format.getD ""
          releaseDate := body.releaseDate.getD ""
          coverArtUrl :=
            match file with
            | some f => some f.path
            | none => body.coverArtUrl.map jsTrim
          coverArtId :=
            match file with
            | some f => some f.filename
            | none => body.coverArtId.map jsTrim
          addedBy := userId }
      if albumValid album then
        { resp := sendResponse 201 true "Album created successfully"
            (albumToJS album)
          db := db ++ [album], deletedImages := [] }
      else
        -- mongoose ValidationError: no `status` property, handler sends 500.
        albumCatch ⟨none, "Album validation failed"⟩ db file

/-- Controller `updateAlbum(req, res, next)`: loads the previous document, builds
`updates = { ...req.body }` — `addedBy` is NOT removed — adds the new
cover-art fields when a file was uploaded, and applies
`findByIdAndUpdate(id, updates, { new: true, runValidators: true })`;
afterwards the previous cover image is deleted when it was replaced. -/
def updateAlbum (db : List StoredAlbum) (paramsId : String) (body : AlbumBody)
    (file : Option FileInfo) : AlbumOutcome :=
  match findAlbumById db paramsId with
  | none => albumCatch ⟨some 404, "Album not found"⟩ db file
  | some prev =>
    let updated : StoredAlbum :=
      { id := prev.id
        title := (body.title.map jsTrim).getD prev.title
        artists := (body.artists.map (List.map jsTrim)).getD prev.artists
        format := body.format.getD prev.format
        releaseDate := body.releaseDate.getD prev.releaseDate
        coverArtUrl :=
          match file with
          | some f => some f.path
          | none => match body.coverArtUrl with
                    | some u => some (jsTrim u)
                    | none => prev.coverArtUrl
        coverArtId :=
          match file with
          | some f => some f.filename
          | none => match body.coverArtId with
                    | some i => some (jsTrim i)
                    | none => prev.coverArtId
        addedBy := body.addedBy.getD prev.addedBy }
    if (match body.format with
        | some f => !(albumFormats.contains f)
        | none => false) then
      -- runValidators rejects an enum violation on an updated path.
      albumCatch ⟨none, "Album validation failed"⟩ db file
    else
      let db' := db.map (fun a => if a.id == paramsId then updated else a)
      let deleted :=
        match file, prev.coverArtId with
        | some _, some old => [old]
        | _, _ => []
      { resp := sendResponse 200 true "Album updated successfully"
          (albumToJS updated)
        db := db', deletedImages := deleted }

/-- Controller `getMyAlbums(req, res, next)`: `Album.find({ addedBy: userId })` sorted by
`createdAt` descending (newest first — the reverse of insertion order); an
empty result is reported with data `[]`. -/
def getMyAlbums (db : List StoredAlbum) (userId : String) : HttpResponse :=
  let myAlbums := (db.filter (fun a => a.addedBy == userId)).reverse
  if myAlbums.length == 0 then
    sendResponse 200 true "You haven\x27t added any albums yet" (.arr [])
  else
    sendResponse 200 true "Albums fetched successfully"
      (.arr (myAlbums.map albumToJS))

/-! ### Auth middlewares (`src/middlewares/auth.middleware.js`) -/

/-- The decoded JWT payload (`verifyToken` is an external primitive and is a
parameter below; only its result shape is fixed by the source). -/
structure Claim where
  id : String
  email : String
deriving DecidableEq

/-- Expression `req.headers.authorization?.replace("Bearer ", "")` — the token string
`isAuth` computes.  `none` only when the header itself is absent: for a
present header, `replace` removes the first occurrence of `"Bearer "` if
there is one and otherwise returns the header unchanged. -/
def extractToken (authHeader : Option String) : Option String :=
  authHeader.map (fun h => jsReplaceFirst h "Bearer ")

/-- The string actually handed to `verifyToken`: `isAuth` throws
`401 "No token provided"` first when the extracted token is falsy
(header absent, or the replacement result is the empty string). -/
def tokenPassedToVerify (authHeader : Option String) : Option String :=
  match extractToken authHeader with
  | none => none
  | some t => if t == "" then none else some t

/-- Middleware `isAuth(allowedRoles = [])`: extract the token, verify it, load the user
by the decoded id, attach it to the request, then — only when `allowedRoles`
is non-empty — require `allowedRoles.includes(user.role)`. -/
def isAuth (verify : String → Except ErrObj Claim) (users : List StoredUser)
    (allowedRoles : List String) (authHeader : Option String) :
    Except ErrObj StoredUser :=
  match tokenPassedToVerify authHeader with
  | none => .error ⟨some 401, "No token provided"⟩
  | some token =>
    match verify token with
    | .error e => .error e
    | .ok decoded =>
      match findUserById users decoded.id with
      | none => .error ⟨some 401, "Unauthorized: No user found in request"⟩
      | some user =>
        if allowedRoles.length != 0 && !(allowedRoles.contains user.role) then
          .error ⟨some 403, "Access denied for role: " ++ user.role⟩
        else
          .ok user

/-- Middleware `isOwner(req, res, next)`: loads the album at `req.params.id`; 404 when
absent, 403 when `album.addedBy.toString() !== req.user.id`, otherwise the
loaded document itself is attached as `req.album` for the handler. -/
def isOwner (db : List StoredAlbum) (user : StoredUser) (paramsId : String) :
    Except ErrObj StoredAlbum :=
  match findAlbumById db paramsId with
  | none => .error ⟨some 404, "Album not found"⟩
  | some album =>
    if album.addedBy != user.id then .error ⟨some 403, "Not authorized"⟩
    else .ok album

/-- Controller `getAlbumById(req, res, next)`: responds with `req.album` as attached by
`isOwner` — no further lookup. -/
def getAlbumById (reqAlbum : StoredAlbum) : HttpResponse :=
  sendResponse 200 true "Album fetched successfully" (albumToJS reqAlbum)

/-- The route `GET /albums/:id` = `isOwner` then `getAlbumById`; an error from
the gate goes to the global handler. -/
def albumByIdRoute (db : List StoredAlbum) (user : StoredUser)
    (paramsId : String) : HttpResponse :=
  match isOwner db user paramsId with
  | .error e => errorHandler e
  | .ok album => getAlbumById album

/-! ### User controllers (`users.controllers.js`) -/

/-- The `req.body` of `PUT /users/change-password`; `none` is an absent field. -/
structure PasswordBody where
  currentPassword : Option String := none
  newPassword : Option String := none
  confirmPassword : Option String := none
deriving DecidableEq

/-- JS falsiness of an optional string field (`!field`): absent or empty. -/
def jsFalsyStr : Option String → Bool
  | none => true
  | some s => s == ""

/-- Outcome of a user-collection controller. -/
structure UserOutcome where
  resp : HttpResponse
  users : List StoredUser
  deletedImages : List String

/-- Controller `changeMyPassword(req, res, next)`: requires all three fields, requires
`newPassword == confirmPassword`, loads the user, checks the current password
with bcrypt, requires length ≥ 8, then assigns and saves — the `trim` setter
and the `pre("save")` hook (`hash`) produce the stored credential — and
responds 200 with `user.password` (the fresh hash) as `data`. -/
def changeMyPassword (compare : String → String → Bool)
    (hash : String → String) (users : List StoredUser) (userId : String)
    (body : PasswordBody) : UserOutcome :=
  if jsFalsyStr body.currentPassword || jsFalsyStr body.newPassword
      || jsFalsyStr body.confirmPassword then
    ⟨errorHandler ⟨some 400, "All fields are required"⟩, users, []⟩
  else if body.newPassword != body.confirmPassword then
    ⟨errorHandler ⟨some 400, "New passwords do not match"⟩, users, []⟩
  else
    match findUserById users userId with
    | none => ⟨errorHandler ⟨some 404, "User not found"⟩, users, []⟩
    | some user =>
      let currentPassword := body.currentPassword.getD ""
      let newPassword := body.newPassword.getD ""
      if !(compare currentPassword user.password) then
        ⟨errorHandler ⟨some 401, "Current password is incorrect"⟩, users, []⟩
      else if newPassword.length < 8 then
        ⟨errorHandler ⟨some 400, "Password must be at least 8 characters long"⟩,
         users, []⟩
      else
        let user' := { user with password := hash (jsTrim newPassword) }
        ⟨sendResponse 200 true "Password changed successfully"
           (.str user'.password),
         users.map (fun v => if v.id == userId then user' else v), []⟩

/-! ### Admin controllers (`admin.controllers.js`) -/

/-- Controller `getAllUsers(req, res, next)`: `User.find()` with no projection — every
stored path of every user, `password` included, is serialized as `data`. -/
def getAllUsers (users : List StoredUser) : HttpResponse :=
  sendResponse 200 true "Users fetched successfully"
    (.arr (users.map userToJS))

/-- Controller `deleteUser(req, res, next)` in `admin.controllers.js`.  The module never
imports `createError`, so on a missing user the expression
`createError(404, "User not found")` raises
`ReferenceError: createError is not defined` — an error without a `status`
property, which the global handler turns into a 500. -/
def adminDeleteUser (users : List StoredUser) (paramsId : String) :
    UserOutcome :=
  match findUserById users paramsId with
  | none =>
    ⟨errorHandler ⟨none, "createError is not defined"⟩, users, []⟩
  | some userDeleted =>
    ⟨sendResponse 200 true "User deleted successfully" (userToJS userDeleted),
     users.filter (fun v => !(v.id == paramsId)),
     match userDeleted.profileImageId with
     | some pid => [pid]
     | none => []⟩

/-- The route `DELETE /admin/users/:id`: `adminRouter.use(isAuth(["admin"]))`
runs before the controller, so a gate failure answers without touching the
user collection. -/
def adminDeleteUserRoute (verify : String → Except ErrObj Claim)
    (users : List StoredUser) (authHeader : Option String)
    (targetId : String) : UserOutcome :=
  match isAuth verify users ["admin"] authHeader with
  | .error e => ⟨errorHandler e, users, []⟩
  | .ok _ => adminDeleteUser users targetId

/-! ### Registration (`auth.controllers.js`) -/

/-- The `req.body` of `POST /auth/register` (schema paths of `userSchema`). -/
structure RegisterBody where
  name : Option String := none
  email : Option String := none
  password : Option String := none
  role : Option String := none
deriving DecidableEq

/-- The `email` path after `new User(req.body)` applied its
`lowercase: true, trim: true` setters. -/
def normalizeEmail (e : String) : String :=
  jsToLower (jsTrim e)

/-- Query `User.findOne({ email: user.email })`: mongoose strips an `undefined`
condition, so an absent email degenerates to `findOne({})` (first document). -/
def findUserByEmail (users : List StoredUser) (email : Option String) :
    Option StoredUser :=
  match email with
  | none => users.head?
  | some e => users.find? (fun u => u.email == e)

/-- Mongoose `save()` validation for a new user: `name`, `email`, `password`
required, password at least 8 characters (after trim), `role` in the enum. -/
def userValid (name email password role : String) : Bool :=
  name != "" && email != "" && password.length ≥ 8
    && (role == "user" || role == "admin")

/-- Controller `registerUser(req, res, next)`: builds the user (setters applied), checks
the email for an existing user — on a hit the uploaded image is deleted both
in the `if (userExist)` branch and again by the `catch` cleanup, and a 400 is
raised — otherwise stores the cover fields and saves (the `pre("save")` hook
hashes the trimmed password); responds 201 with the saved document. -/
def registerUser (hash : String → String) (users : List StoredUser)
    (body : RegisterBody) (file : Option FileInfo) (freshId : String) :
    UserOutcome :=
  let email := body.email.map normalizeEmail
  match findUserByEmail users email with
  | some _ =>
    ⟨errorHandler ⟨some 400, "This user already exists"⟩, users,
     match file with | some f => [f.filename, f.filename] | none => []⟩
  | none =>
    let name := (body.name.map jsTrim).getD ""
    let password := (body.password.map jsTrim).getD ""
    let role := body.role.getD "user"
    if userValid name (email.getD "") password role then
      let user : StoredUser :=
        { id := freshId, name := name, email := email.getD ""
          password := hash password, role := role
          profileImageUrl := file.map (fun f => f.path)
          profileImageId := file.map (fun f => f.filename) }
      ⟨sendResponse 201 true "User registered successfully" (userToJS user),
       users ++ [user], []⟩
    else
      -- ValidationError: no `status`, the catch cleanup deletes the image.
      ⟨errorHandler ⟨none, "User validation failed"⟩, users,
       match file with | some f => [f.filename] | none => []⟩

/-! ### Sample data used by concrete evaluations -/

/-- A sample stored album owned by user `u1`. -/
def sampleAlbum : StoredAlbum :=
  { id := "a1", title := "Thriller", artists := ["Michael Jackson"]
    format := "LP", releaseDate := "1982-11-29", coverArtUrl := none
    coverArtId := none, addedBy := "u1" }

/-- A sample stored user with role `user`. -/
def sampleUser : StoredUser :=
  { id := "u1", name := "Ann", email := "a@x.com", password := "hash1"
    role := "user", profileImageUrl := none, profileImageId := none }

/-- A second user, not the owner of `sampleAlbum`. -/
def otherUser : StoredUser :=
  { sampleUser with id := "u2", email := "b@x.com" }

/-- A sample album creation body (mixed-case title and artist). -/
def exBody : AlbumBody :=
  { title := some "Thriller", artists := some ["Michael Jackson"]
    format := some "LP", releaseDate := some "1982-11-29" }

/-- First creation of the sample album by `u1` on an empty collection. -/
def exPost1 : AlbumOutcome := postAlbum [] "u1" exBody none "a1"

/-- Second, identical creation by the same owner. -/
def exPost2 : AlbumOutcome := postAlbum exPost1.db "u1" exBody none "a2"

/-- A bcrypt comparison stub that accepts everything. -/
def cmpAlways : String → String → Bool := fun _ _ => true

/-- A concrete stand-in for the bcrypt hashing primitive. -/
def demoHash : String → String := fun s => String.append "$2b$10$" s

/-- A matching password-change body. -/
def pwBody : PasswordBody :=
  { currentPassword := some "oldpw1234", newPassword := some "newpw1234"
    confirmPassword := some "newpw1234" }

/-- The outcome of a successful password change for `sampleUser`. -/
def cmOut : UserOutcome :=
  changeMyPassword cmpAlways demoHash [sampleUser] "u1" pwBody

/-- A concrete stand-in for `verifyToken`: accepts exactly `tok1` for `u1`. -/
def demoVerify : String → Except ErrObj Claim := fun t =>
  if t == "tok1" then .ok ⟨"u1", "a@x.com"⟩
  else .error ⟨some 401, "Invalid token"⟩

/-! ### Helper lemmas on `removeFirstOcc` -/

/-- If the pattern has no occurrence, `replace` returns the input unchanged. -/
theorem removeFirstOcc_of_contains_false (pat : List Char) (s : List Char)
    (h : containsSeq pat s = false) : removeFirstOcc pat s = s := by
  induction s with
  | nil => rfl
  | cons c rest ih =>
    unfold containsSeq at h
    rw [Bool.or_eq_false_iff] at h
    unfold removeFirstOcc
    rw [if_neg (by simp [h.1]), ih h.2]

/-- Replacing the pattern at the very front drops exactly the pattern. -/
theorem removeFirstOcc_append_self (pat l : List Char) (hp : pat ≠ []) :
    removeFirstOcc pat (pat ++ l) = l := by
  match pat, hp with
  | p :: ps, _ =>
    show removeFirstOcc (p :: ps) (p :: (ps ++ l)) = l
    unfold removeFirstOcc
    rw [if_pos, List.length_cons]
    · show ((p :: ps) ++ l).drop (p :: ps).length = l
      exact List.drop_left (p :: ps) l
    · exact List.isPrefixOf_iff_prefix.mpr (List.prefix_append (p :: ps) l)

/-! ### Claim theorems -/

/-- C1: creating the very same album ("Thriller" / ["Michael Jackson"]) twice
for the same owner is NOT rejected: the duplicate `findOne` compares the
lower-cased title/artists against the stored raw `title`/`artists` paths (the
schema has no normalized paths), so the second call also returns 201 and a
second, normalized-equal album is stored — the claimed 400 never happens. -/
theorem postAlbum_duplicate_not_detected :
    exPost1.resp.status = 201 ∧
    exPost2.resp.status = 201 ∧
    exPost2.db.length = 2 ∧
    exPost2.db.map
        (fun a => (normalize a.title, a.artists.map normalize, a.addedBy))
      = [("thriller", ["michael jackson"], "u1"),
         ("thriller", ["michael jackson"], "u1")] := by
  decide

/-- C2: `postAlbum` does force `addedBy` to the caller even when the body
supplies one, but `updateAlbum` passes `{ ...req.body }` unfiltered to
`findByIdAndUpdate`, so a `PUT /albums/:id` body carrying `addedBy` rewrites
the owner — the owner-immutability half of the claim fails on the code. -/
theorem updateAlbum_changes_owner :
    (postAlbum [] "u1" { exBody with addedBy := some "intruder" } none "a1").db.map
        (fun a => a.addedBy) = ["u1"] ∧
    (updateAlbum [sampleAlbum] "a1" { addedBy := some "u2" } none).resp.status
      = 200 ∧
    (updateAlbum [sampleAlbum] "a1" { addedBy := some "u2" } none).db.map
        (fun a => a.addedBy) = ["u2"] := by
  decide

/-- C7: `DELETE /admin/users/:id` for an id with no user does not answer 404:
`admin.controllers.js` never imports `createError`, so the miss branch raises
`ReferenceError: createError is not defined`, an error without a `status`,
and the global handler answers 500. -/
theorem adminDeleteUser_missing_user_500 :
    (adminDeleteUser [sampleUser] "deadbeef").resp.status = 500 ∧
    (adminDeleteUser [sampleUser] "deadbeef").resp.success = false ∧
    (adminDeleteUser [sampleUser] "deadbeef").resp.message
      = "createError is not defined" ∧
    (adminDeleteUser [sampleUser] "deadbeef").users = [sampleUser] := by
  decide

/-- C3: the ownership gate answers 404 when no album has the requested id,
403 when the album's owner id differs from the principal's id (string
equality), and otherwise succeeds with exactly the loaded album, which is
what the `GET /albums/:id` handler responds with — no re-fetch. -/
theorem isOwner_gate_spec (db : List StoredAlbum) (u : StoredUser)
    (i : String) :
    (findAlbumById db i = none →
      isOwner db u i = .error ⟨some 404, "Album not found"⟩) ∧
    (∀ a, findAlbumById db i = some a → a.addedBy ≠ u.id →
      isOwner db u i = .error ⟨some 403, "Not authorized"⟩) ∧
    (∀ a, findAlbumById db i = some a → a.addedBy = u.id →
      isOwner db u i = .ok a ∧ albumByIdRoute db u i = getAlbumById a) := by
  refine ⟨fun h => ?_, fun a ha hne => ?_, fun a ha he => ?_⟩
  · unfold isOwner; rw [h]
  · unfold isOwner; rw [ha]; simp [hne]
  · have h1 : isOwner db u i = .ok a := by
      unfold isOwner; rw [ha]; simp [he]
    exact ⟨h1, by unfold albumByIdRoute; rw [h1]⟩

/-- C3 witness: on a one-album store, the owner gets the stored album, a
different principal gets 403, and an unknown id gets 404. -/
theorem isOwner_gate_spec_witness :
    isOwner [sampleAlbum] sampleUser "a1" = .ok sampleAlbum ∧
    isOwner [sampleAlbum] otherUser "a1"
      = .error ⟨some 403, "Not authorized"⟩ ∧
    isOwner [sampleAlbum] sampleUser "zz"
      = .error ⟨some 404, "Album not found"⟩ :=
  ⟨((isOwner_gate_spec [sampleAlbum] sampleUser "a1").2.2 sampleAlbum
      (by decide) (by decide)).1,
   (isOwner_gate_spec [sampleAlbum] otherUser "a1").2.1 sampleAlbum
      (by decide) (by decide),
   (isOwner_gate_spec [sampleAlbum] sampleUser "zz").1 (by decide)⟩

/-- C4: for an authenticated principal (valid token resolving to a stored
user `u`), `isAuth` with an empty role list succeeds; with a non-empty list
it succeeds iff `u.role` is a member, and otherwise answers 403; composed on
`DELETE /admin/users/:id`, a non-admin gets the 403 response for every target
id and the user collection is untouched. -/
theorem isAuth_role_gate_spec (verify : String → Except ErrObj Claim)
    (users : List StoredUser) (authHeader : Option String) (R : List String)
    (t : String) (c : Claim) (u : StoredUser)
    (ht : tokenPassedToVerify authHeader = some t)
    (hv : verify t = .ok c)
    (hf : findUserById users c.id = some u) :
    (isAuth verify users [] authHeader = .ok u) ∧
    (u.role ∈ R → isAuth verify users R authHeader = .ok u) ∧
    (u.role ∉ R → R ≠ [] →
      isAuth verify users R authHeader
        = .error ⟨some 403, "Access denied for role: " ++ u.role⟩) ∧
    (u.role ≠ "admin" → ∀ targetId,
      adminDeleteUserRoute verify users authHeader targetId
        = ⟨errorHandler ⟨some 403, "Access denied for role: " ++ u.role⟩,
           users, []⟩) := by
  refine ⟨?_, fun hmem => ?_, fun hnmem hne => ?_, fun hadm targetId => ?_⟩
  · simp only [isAuth, ht, hv, hf]; rfl
  · simp only [isAuth, ht, hv, hf]
    simp [List.contains, List.elem_eq_mem, hmem]
  · simp only [isAuth, ht, hv, hf]
    have hlen : R.length ≠ 0 := fun h0 => hne (List.length_eq_zero.mp h0)
    simp [List.contains, List.elem_eq_mem, hnmem, hlen]
  · have h403 : isAuth verify users ["admin"] authHeader
        = .error ⟨some 403, "Access denied for role: " ++ u.role⟩ := by
      simp only [isAuth, ht, hv, hf]
      simp [List.contains, List.elem_eq_mem, hadm]
    unfold adminDeleteUserRoute; rw [h403]

/-- C4 witness: with a stub verifier accepting `tok1` for `u1` and a store
holding only the non-admin `sampleUser`, authentication with no role
restriction succeeds, the role list `["user"]` admits the user, and the
admin delete route answers 403 without touching the store. -/
theorem isAuth_role_gate_spec_witness :
    isAuth demoVerify [sampleUser] [] (some "Bearer tok1") = .ok sampleUser ∧
    isAuth demoVerify [sampleUser] ["user"] (some "Bearer tok1")
      = .ok sampleUser ∧
    isAuth demoVerify [sampleUser] ["admin"] (some "Bearer tok1")
      = .error ⟨some 403, "Access denied for role: " ++ sampleUser.role⟩ ∧
    adminDeleteUserRoute demoVerify [sampleUser] (some "Bearer tok1") "zz"
      = ⟨errorHandler ⟨some 403, "Access denied for role: " ++ sampleUser.role⟩,
         [sampleUser], []⟩ :=
  ⟨(isAuth_role_gate_spec demoVerify [sampleUser] (some "Bearer tok1") []
      "tok1" ⟨"u1", "a@x.com"⟩ sampleUser (by decide) rfl (by decide)).1,
   (isAuth_role_gate_spec demoVerify [sampleUser] (some "Bearer tok1") ["user"]
      "tok1" ⟨"u1", "a@x.com"⟩ sampleUser (by decide) rfl (by decide)).2.1
      (by decide),
   (isAuth_role_gate_spec demoVerify [sampleUser] (some "Bearer tok1") ["admin"]
      "tok1" ⟨"u1", "a@x.com"⟩ sampleUser (by decide) rfl (by decide)).2.2.1
      (by decide) (by decide),
   (isAuth_role_gate_spec demoVerify [sampleUser] (some "Bearer tok1") []
      "tok1" ⟨"u1", "a@x.com"⟩ sampleUser (by decide) rfl (by decide)).2.2.2
      (by decide) "zz"⟩

/-- C5: the stored credential does reach response payloads: a successful
`changeMyPassword` responds 200 with `user.password` — the freshly stored
bcrypt hash — as `data`, and `GET /admin/users` serializes every user
document with its `password` path in `data`. -/
theorem changeMyPassword_response_contains_hash :
    cmOut.resp.status = 200 ∧
    cmOut.resp.data = some (.str (demoHash "newpw1234")) ∧
    findUserById cmOut.users "u1"
      = some { sampleUser with password := demoHash "newpw1234" } ∧
    (getAllUsers [sampleUser]).data
      = some (.arr [.obj [("_id", .str "u1"), ("name", .str "Ann"),
          ("email", .str "a@x.com"), ("password", .str "hash1"),
          ("role", .str "user")]]) := by
  refine ⟨rfl, rfl, by decide, rfl⟩

/-- C6: whenever `newPassword` and `confirmPassword` differ, the password
change answers 400 and the user collection — in particular the stored
credential — is exactly what it was: no write happens. -/
theorem changeMyPassword_mismatch_no_write (compare : String → String → Bool)
    (hash : String → String) (users : List StoredUser) (userId : String)
    (body : PasswordBody)
    (h : body.newPassword ≠ body.confirmPassword) :
    (changeMyPassword compare hash users userId body).resp.status = 400 ∧
    (changeMyPassword compare hash users userId body).resp.success = false ∧
    (changeMyPassword compare hash users userId body).users = users := by
  unfold changeMyPassword
  cases hc : (jsFalsyStr body.currentPassword || jsFalsyStr body.newPassword
      || jsFalsyStr body.confirmPassword) with
  | true => simp only [hc]; exact ⟨rfl, rfl, rfl⟩
  | false =>
    have h2 : (body.newPassword != body.confirmPassword) = true :=
      bne_iff_ne.mpr h
    simp only [hc, h2]
    exact ⟨rfl, rfl, rfl⟩

/-- C6 witness: a concrete mismatching change request is refused with 400
and leaves the single stored user untouched. -/
theorem changeMyPassword_mismatch_no_write_witness :
    (changeMyPassword cmpAlways demoHash [sampleUser] "u1"
        { currentPassword := some "oldpw1234", newPassword := some "newpw1234"
          confirmPassword := some "different1" }).resp.status = 400 ∧
    (changeMyPassword cmpAlways demoHash [sampleUser] "u1"
        { currentPassword := some "oldpw1234", newPassword := some "newpw1234"
          confirmPassword := some "different1" }).resp.success = false ∧
    (changeMyPassword cmpAlways demoHash [sampleUser] "u1"
        { currentPassword := some "oldpw1234", newPassword := some "newpw1234"
          confirmPassword := some "different1" }).users = [sampleUser] :=
  changeMyPassword_mismatch_no_write cmpAlways demoHash [sampleUser] "u1"
    { currentPassword := some "oldpw1234", newPassword := some "newpw1234"
      confirmPassword := some "different1" } (by decide)

/-- C8 counterexample: the authorization header `"sometoken123"` does not
carry the `"Bearer "` prefix, yet the token handed to `verifyToken` is that
very header value — the claim that such a header yields no token for
verification is false. -/
theorem extractToken_without_prefix_passed :
    tokenPassedToVerify (some "sometoken123") = some "sometoken123" ∧
    ("Bearer ".data).isPrefixOf "sometoken123".data = false := by
  decide

/-- C8 amended: the verifier receives the header with the first occurrence of
the substring `"Bearer "` removed; a leading `"Bearer "` is stripped, but the
prefix is not required — a non-empty header in which `"Bearer "` never occurs
is passed to verification unchanged.  An absent header yields no token. -/
theorem tokenPassedToVerify_amended (h : String) :
    (containsSeq "Bearer ".data h.data = false → h ≠ "" →
      tokenPassedToVerify (some h) = some h) ∧
    (∀ t, h = "Bearer " ++ t → t ≠ "" →
      tokenPassedToVerify (some h) = some t) ∧
    tokenPassedToVerify none = none := by
  refine ⟨fun hc hne => ?_, fun t htok htne => ?_, rfl⟩
  · have hrep : jsReplaceFirst h "Bearer " = h := by
      unfold jsReplaceFirst
      rw [removeFirstOcc_of_contains_false _ _ hc]
    have hex : extractToken (some h) = some (jsReplaceFirst h "Bearer ") := rfl
    unfold tokenPassedToVerify
    rw [hex, hrep]
    show (if h == "" then none else some h) = some h
    rw [if_neg (by simp [hne])]
  · have hdata : h.data = "Bearer ".data ++ t.data := by
      rw [htok]; exact String.data_append "Bearer " t
    have hrep : jsReplaceFirst h "Bearer " = t := by
      unfold jsReplaceFirst
      rw [hdata, removeFirstOcc_append_self _ _ (by decide)]
    have hex : extractToken (some h) = some (jsReplaceFirst h "Bearer ") := rfl
    unfold tokenPassedToVerify
    rw [hex, hrep]
    show (if t == "" then none else some t) = some t
    rw [if_neg (by simp [htne])]

/-- C8 amended witness: a header without the prefix is passed through
verbatim, and a proper bearer header is stripped to its token. -/
theorem tokenPassedToVerify_amended_witness :
    tokenPassedToVerify (some "sometoken123") = some "sometoken123" ∧
    tokenPassedToVerify (some "Bearer tok1") = some "tok1" :=
  ⟨(tokenPassedToVerify_amended "sometoken123").1 (by decide) (by decide),
   (tokenPassedToVerify_amended "Bearer tok1").2.1 "tok1" (by decide)
     (by decide)⟩

/-- C9 counterexample: a list query with no results does NOT omit `data` —
`getMyAlbums` on an empty collection passes `[]` to `sendResponse`, an empty
array is truthy in JS, so the response carries `data: []`. -/
theorem getMyAlbums_empty_data_present :
    (getMyAlbums [] "u1").data = some (.arr []) ∧
    (getMyAlbums [] "u1").data ≠ none :=
  ⟨rfl, Option.some_ne_none (JSValue.arr [])⟩

/-- C9 amended: every response is exactly `{ success, message }` plus an
optional `data` key, and `data` is omitted exactly when the payload is
JS-falsy (`null`/`undefined`, `false`, `0`, `""`); an empty array is truthy,
so a list query with no results carries `data: []` rather than omitting it. -/
theorem sendResponse_envelope_amended (sc : Nat) (suc : Bool) (msg : String)
    (d : JSValue) (db : List StoredAlbum) (uid : String) :
    ((sendResponse sc suc msg d).status = sc ∧
     (sendResponse sc suc msg d).success = suc ∧
     (sendResponse sc suc msg d).message = msg) ∧
    ((sendResponse sc suc msg d).data = none ↔ truthy d = false) ∧
    (db.filter (fun a => a.addedBy == uid) = [] →
      (getMyAlbums db uid).data = some (.arr [])) := by
  refine ⟨⟨rfl, rfl, rfl⟩, ?_, fun hf => ?_⟩
  · unfold sendResponse
    cases hd : truthy d <;> simp [hd]
  · unfold getMyAlbums
    rw [hf]
    rfl

/-- C9 amended witness: a concrete owner with no stored albums receives a
response whose `data` is the (truthy) empty array. -/
theorem sendResponse_envelope_amended_witness :
    (getMyAlbums [] "u9").data = some (.arr []) :=
  (sendResponse_envelope_amended 200 true "ok" (.arr []) [] "u9").2.2 rfl

/-- C10: registering with an email equal to that of an already-stored user
(stored emails are fixed points of the lowercase/trim setters) answers 400,
stores no new user, and the uploaded image — when there is one — is passed to
the best-effort Cloudinary cleanup. -/
theorem registerUser_duplicate_email_rejected (hash : String → String)
    (users : List StoredUser) (body : RegisterBody) (file : Option FileInfo)
    (freshId : String) (u : StoredUser) (hu : u ∈ users)
    (he : body.email = some u.email)
    (hn : normalizeEmail u.email = u.email) :
    (registerUser hash users body file freshId).resp.status = 400 ∧
    (registerUser hash users body file freshId).resp.success = false ∧
    (registerUser hash users body file freshId).users = users ∧
    (∀ f, file = some f →
      f.filename ∈ (registerUser hash users body file freshId).deletedImages) := by
  have hemail : body.email.map normalizeEmail = some u.email := by
    rw [he]
    simp [hn]
  have hsome : (users.find? (fun v => v.email == u.email)).isSome := by
    rw [List.find?_isSome]
    exact ⟨u, hu, by simp⟩
  obtain ⟨w, hw⟩ := Option.isSome_iff_exists.mp hsome
  have hfind : findUserByEmail users (body.email.map normalizeEmail) = some w := by
    rw [hemail]
    unfold findUserByEmail
    exact hw
  unfold registerUser
  simp only [hfind]
  refine ⟨by trivial, by trivial, by trivial, fun f hf => ?_⟩
  rw [hf]
  simp

/-- C10 witness: registering `a@x.com` again with an uploaded image is
refused with 400, the store still holds exactly `sampleUser`, and the image
public id is queued for Cloudinary deletion. -/
theorem registerUser_duplicate_email_rejected_witness :
    (registerUser demoHash [sampleUser]
        { name := some "Bob", email := some "a@x.com"
          password := some "password9" }
        (some ⟨"http://img/1", "img1"⟩) "u9").resp.status = 400 ∧
    (registerUser demoHash [sampleUser]
        { name := some "Bob", email := some "a@x.com"
          password := some "password9" }
        (some ⟨"http://img/1", "img1"⟩) "u9").resp.success = false ∧
    (registerUser demoHash [sampleUser]
        { name := some "Bob", email := some "a@x.com"
          password := some "password9" }
        (some ⟨"http://img/1", "img1"⟩) "u9").users = [sampleUser] ∧
    "img1" ∈ (registerUser demoHash [sampleUser]
        { name := some "Bob", email := some "a@x.com"
          password := some "password9" }
        (some ⟨"http://img/1", "img1"⟩) "u9").deletedImages :=
  have hr := registerUser_duplicate_email_rejected demoHash [sampleUser]
    { name := some "Bob", email := some "a@x.com"
      password := some "password9" }
    (some ⟨"http://img/1", "img1"⟩) "u9" sampleUser (by decide) (by decide)
    (by decide)
  ⟨hr.1, hr.2.1, hr.2.2.1, hr.2.2.2 ⟨"http://img/1", "img1"⟩ rfl⟩

end Craterra
